/-
Verification of the admission/caching/resource layer of the image-colorizer
service (src/performance.py) against its specification.

Shallow embedding conventions:
  * External effects (the key-value store, the filesystem, wall-clock readings)
    are passed in as explicit oracles / parameters.
  * Python code that may raise is embedded as an `Except Unit`-valued body;
    a surrounding `try/except` becomes an explicit catch that pattern-matches
    on that body.
  * Python floats carrying metric values / percentages are modelled as ℚ
    (the properties at stake are structural, not rounding-sensitive).
-/
import Mathlib

/-! ## ResourceManager (src/performance.py lines 160-219)

`ResourceManager.cleanup_temp_files` iterates over a snapshot
`list(self.temp_files)` of the tracked set.  Per path it runs, inside a
`try`: `if os.path.exists(path): os.unlink(path); cleaned_count += 1`
and then `self.temp_files.discard(path)`; the `except` clause logs and
continues with the next path.

The embedding takes the filesystem as two oracles:
  * `ex p` — what `os.path.exists(p)` returns at the moment `p` is visited;
  * `delok p` — whether `os.unlink(p)` succeeds (`false` = raises).
The iteration order of `list(self.temp_files)` is an explicit list `order`
enumerating the tracked set. -/

structure RMState where
  temp_files : Finset String
  cleaned_count : Nat
deriving DecidableEq

/-- The body of one loop iteration of `cleanup_temp_files`, before the
`except` clause: it can fail (when `os.path.exists` is true and `os.unlink`
raises), and the `discard` happens only after a successful (or skipped)
deletion, because it is textually inside the `try` after `os.unlink`. -/
def sweepStepBody (ex delok : String → Bool) (st : RMState) (p : String) :
    Except Unit RMState :=
  if ex p then
    if delok p then Except.ok ⟨st.temp_files.erase p, st.cleaned_count + 1⟩
    else Except.error ()
  else Except.ok ⟨st.temp_files.erase p, st.cleaned_count⟩

/-- One loop iteration of `cleanup_temp_files` with its `except` clause:
a raising body leaves the state unchanged (the error is logged and the loop
moves on). -/
def sweepStep (ex delok : String → Bool) (st : RMState) (p : String) : RMState :=
  match sweepStepBody ex delok st p with
  | Except.ok st2 => st2
  | Except.error _ => st

/-- `ResourceManager.cleanup_temp_files`: fold the per-path iteration over the
snapshot `order` of the tracked set `tfs`, starting with `cleaned_count = 0`.
The function is total: no exception escapes, by construction of `sweepStep`. -/
def cleanup_temp_files (ex delok : String → Bool) (tfs : Finset String)
    (order : List String) : RMState :=
  order.foldl (sweepStep ex delok) ⟨tfs, 0⟩

/-- `ResourceManager.register_temp_file`. -/
def register_temp_file (tfs : Finset String) (p : String) : Finset String :=
  insert p tfs

/-- `ResourceManager.unregister_temp_file`. -/
def unregister_temp_file (tfs : Finset String) (p : String) : Finset String :=
  tfs.erase p

theorem sweep_foldl_temp_files (ex delok : String → Bool) (order : List String) :
    ∀ st : RMState,
      (order.foldl (sweepStep ex delok) st).temp_files
        = st.temp_files \ (order.filter (fun p => !(ex p && !delok p))).toFinset := by
  induction order with
  | nil => intro st; simp
  | cons p rest ih =>
    intro st
    rw [List.foldl_cons, ih]
    by_cases hex : ex p = true
    · by_cases hdel : delok p = true
      · have hstep : sweepStep ex delok st p
            = ⟨st.temp_files.erase p, st.cleaned_count + 1⟩ := by
          simp [sweepStep, sweepStepBody, hex, hdel]
        rw [hstep]
        have hfil : (List.filter (fun p => !(ex p && !delok p)) (p :: rest))
            = p :: List.filter (fun p => !(ex p && !delok p)) rest := by
          simp [List.filter_cons, hex, hdel]
        rw [hfil]
        ext x
        simp only [Finset.mem_sdiff, Finset.mem_erase, List.toFinset_cons,
          Finset.mem_insert, List.mem_toFinset]
        constructor
        · rintro ⟨⟨hxp, hxin⟩, hxf⟩
          exact ⟨hxin, by rintro (rfl | hmem) <;> [exact hxp rfl; exact hxf hmem]⟩
        · rintro ⟨hxin, hxf⟩
          refine ⟨⟨fun hxe => hxf (Or.inl hxe), hxin⟩, fun hmem => hxf (Or.inr hmem)⟩
      · have hstep : sweepStep ex delok st p = st := by
          simp [sweepStep, sweepStepBody, hex, hdel]
        rw [hstep]
        have hfil : (List.filter (fun p => !(ex p && !delok p)) (p :: rest))
            = List.filter (fun p => !(ex p && !delok p)) rest := by
          simp [List.filter_cons, hex, hdel]
        rw [hfil]
    · have hstep : sweepStep ex delok st p
          = ⟨st.temp_files.erase p, st.cleaned_count⟩ := by
        simp [sweepStep, sweepStepBody, hex]
      rw [hstep]
      have hfil : (List.filter (fun p => !(ex p && !delok p)) (p :: rest))
          = p :: List.filter (fun p => !(ex p && !delok p)) rest := by
        simp [List.filter_cons, hex]
      rw [hfil]
      ext x
      simp only [Finset.mem_sdiff, Finset.mem_erase, List.toFinset_cons,
        Finset.mem_insert, List.mem_toFinset]
      constructor
      · rintro ⟨⟨hxp, hxin⟩, hxf⟩
        exact ⟨hxin, by rintro (rfl | hmem) <;> [exact hxp rfl; exact hxf hmem]⟩
      · rintro ⟨hxin, hxf⟩
        refine ⟨⟨fun hxe => hxf (Or.inl hxe), hxin⟩, fun hmem => hxf (Or.inr hmem)⟩

/-- C1 (counterexample): the claim "after any call to `cleanup_temp_files`
returns, the tracked set is empty ... the bookkeeping entry for the failed
path is still removed from the set" is false on the code: with one tracked
path `"a"` that exists on disk and whose `os.unlink` raises, the sweep
returns with `"a"` still in the tracked set, because `discard` sits inside
the `try` after `os.unlink` and is skipped when `os.unlink` raises. -/
theorem c1_counterexample :
    ¬ ((cleanup_temp_files (fun _ => true) (fun _ => false) {"a"} ["a"]).temp_files = ∅)
      ∧ "a" ∈ (cleanup_temp_files (fun _ => true) (fun _ => false) {"a"} ["a"]).temp_files := by
  constructor
  · intro h
    have : "a" ∈ (cleanup_temp_files (fun _ => true) (fun _ => false) {"a"} ["a"]).temp_files := by
      simp [cleanup_temp_files, sweepStep, sweepStepBody]
    rw [h] at this
    exact absurd this (Finset.not_mem_empty _)
  · simp [cleanup_temp_files, sweepStep, sweepStepBody]

/-- C1 (amended): `cleanup_temp_files` never raises (it is total by the
per-iteration catch), each per-path deletion failure only skips that path's
bookkeeping removal, and after the sweep the tracked set consists exactly of
the paths that existed on disk and whose deletion raised; every path that was
missing on disk or successfully deleted has been removed from the set. -/
theorem c1_amended (ex delok : String → Bool) (tfs : Finset String)
    (order : List String) (hcov : ∀ p, p ∈ tfs → p ∈ order) :
    ∀ p, p ∈ (cleanup_temp_files ex delok tfs order).temp_files
      ↔ (p ∈ tfs ∧ ex p = true ∧ delok p = false) := by
  intro p
  unfold cleanup_temp_files
  rw [sweep_foldl_temp_files]
  simp only [Finset.mem_sdiff, List.mem_toFinset, List.mem_filter]
  constructor
  · rintro ⟨hin, hnf⟩
    refine ⟨hin, ?_⟩
    by_cases hex : ex p = true
    · by_cases hdel : delok p = true
      · exact absurd ⟨hcov p hin, by simp [hex, hdel]⟩ hnf
      · exact ⟨hex, by simpa using hdel⟩
    · exact absurd ⟨hcov p hin, by simp [hex]⟩ hnf
  · rintro ⟨hin, hex, hdel⟩
    refine ⟨hin, ?_⟩
    rintro ⟨-, hb⟩
    simp [hex, hdel] at hb

/-- C1 (witness for the amended theorem): a single tracked path that is
already missing on disk (pre-deleted externally) is removed from the set. -/
theorem c1_amended_witness :
    "a" ∈ (cleanup_temp_files (fun _ => false) (fun _ => true) {"a"} ["a"]).temp_files
      ↔ ("a" ∈ ({"a"} : Finset String) ∧ (fun (_ : String) => false) "a" = true
          ∧ (fun (_ : String) => true) "a" = false) :=
  c1_amended (fun _ => false) (fun _ => true) {"a"} ["a"]
    (by intro p hp; simpa using (by simpa using hp)) "a"

/-! ## LoadBalancer (src/performance.py lines 221-248)

`LoadBalancer.__init__(max_concurrent)` creates `asyncio.Semaphore(max_concurrent)`
and sets `active_requests = 0`.  `process_request` is

    async with self.semaphore:
        self.active_requests += 1
        try:
            result = await request_func(*args, **kwargs)
            return result
        finally:
            self.active_requests -= 1

Under asyncio's cooperative scheduling, control can only change task at an
`await`.  Hence each job contributes exactly two atomic transitions:
  * acquire: `semaphore.acquire()` completes (only possible while the
    semaphore counter is positive), the counter drops by one, and
    `active_requests += 1` runs before the next suspension point;
  * finish: `request_func` returns or raises, the `finally` block runs
    `active_requests -= 1`, and leaving the `async with` releases the
    semaphore — all without an intervening suspension point.
The interleaving of `k` concurrent `process_request` calls is an arbitrary
sequence of such transitions. -/

inductive JStatus where
  | pending : JStatus
  | running : JStatus
  | done : Bool → JStatus
deriving DecidableEq

structure LBState where
  sem : Nat
  active : Int
  jobs : List JStatus
deriving DecidableEq

/-- The initial `LoadBalancer` state: semaphore counter at `max_concurrent`,
`active_requests = 0`, all `k` submitted jobs still waiting to acquire. -/
def initLB (max_concurrent k : Nat) : LBState :=
  ⟨max_concurrent, 0, List.replicate k JStatus.pending⟩

/-- One atomic transition of the interleaved execution of `process_request`
calls.  `finish` takes the job's outcome (`true` = `request_func` returned,
`false` = it raised); both run the `finally` decrement and the semaphore
release. -/
inductive LBStep : LBState → LBState → Prop where
  | acquire (s : LBState) (i : Nat)
      (hi : s.jobs[i]? = some JStatus.pending) (hs : 0 < s.sem) :
      LBStep s ⟨s.sem - 1, s.active + 1, s.jobs.set i JStatus.running⟩
  | finish (s : LBState) (i : Nat) (ok : Bool)
      (hi : s.jobs[i]? = some JStatus.running) :
      LBStep s ⟨s.sem + 1, s.active - 1, s.jobs.set i (JStatus.done ok)⟩

/-- The states a `LoadBalancer` configured with maximum `n` and `k` submitted
jobs can reach under some interleaving. -/
def ReachableLB (n k : Nat) (s : LBState) : Prop :=
  Relation.ReflTransGen LBStep (initLB n k) s

/-- Number of jobs currently inside the semaphore-guarded region. -/
def runningCount (jobs : List JStatus) : Nat :=
  jobs.countP (fun j => j = JStatus.running)

theorem lb_step_preserve {n : Nat} {s s' : LBState} (hstep : LBStep s s')
    (h1 : runningCount s.jobs + s.sem = n)
    (h2 : s.active = (runningCount s.jobs : Int)) :
    runningCount s'.jobs + s'.sem = n
      ∧ s'.active = (runningCount s'.jobs : Int) := by
  cases hstep with
  | acquire i hi hs =>
    obtain ⟨hilen, hgot⟩ := List.getElem?_eq_some_iff.mp hi
    have hcnt : runningCount (s.jobs.set i JStatus.running)
        = runningCount s.jobs + 1 := by
      unfold runningCount
      rw [List.countP_set _ _ _ _ hilen, hgot]
      simp
    refine ⟨?_, ?_⟩
    · simp only [hcnt]
      omega
    · simp only [hcnt, h2]
      push_cast
      ring
  | finish i ok hi =>
    obtain ⟨hilen, hgot⟩ := List.getElem?_eq_some_iff.mp hi
    have hpos : 1 ≤ runningCount s.jobs := by
      have h0 := List.boole_getElem_le_countP
        (fun j => decide (j = JStatus.running)) s.jobs i hilen
      rw [hgot] at h0
      simpa [runningCount] using h0
    have hcnt : runningCount (s.jobs.set i (JStatus.done ok))
        = runningCount s.jobs - 1 := by
      unfold runningCount
      rw [List.countP_set _ _ _ _ hilen, hgot]
      simp
    refine ⟨?_, ?_⟩
    · simp only [hcnt]
      omega
    · simp only [hcnt, h2]
      omega

theorem lb_invariant {n k : Nat} {s : LBState} (h : ReachableLB n k s) :
    runningCount s.jobs + s.sem = n ∧ s.active = (runningCount s.jobs : Int) := by
  induction h with
  | refl =>
    have hz : runningCount (List.replicate k JStatus.pending) = 0 := by
      unfold runningCount
      rw [List.countP_eq_zero]
      intro j hj
      rw [List.eq_of_mem_replicate hj]
      simp
    exact ⟨by simp [initLB, hz], by simp [initLB, hz]⟩
  | tail _ hstep ih =>
    exact lb_step_preserve hstep ih.1 ih.2

/-- C2: for every interleaving of concurrent `process_request` calls on a
`LoadBalancer` configured with `max_concurrent = n`, the number of jobs
simultaneously inside the semaphore-guarded region never exceeds `n`. -/
theorem c2_admission_bound {n k : Nat} {s : LBState} (h : ReachableLB n k s) :
    runningCount s.jobs ≤ n := by
  have := (lb_invariant h).1
  omega

/-- C2 (witness): with `n = 1`, `k = 2`, the state reached after job 0
acquires its slot is reachable and satisfies the bound. -/
theorem c2_admission_bound_witness :
    runningCount (⟨0, 1, [JStatus.running, JStatus.pending]⟩ : LBState).jobs ≤ 1 :=
  c2_admission_bound
    (Relation.ReflTransGen.tail (Relation.ReflTransGen.refl)
      (show LBStep (initLB 1 2) ⟨0, 1, [JStatus.running, JStatus.pending]⟩ from
        LBStep.acquire (initLB 1 2) 0 (by decide) (by decide)))

/-- C3: every admission slot is released exactly once on every exit path.
Whether each wrapped job function returned normally (`done true`) or raised
(`done false`), once all submitted jobs have completed, `active_requests` is
back to `0` and the semaphore counter is back at the configured maximum:
every acquired permit was returned, none twice. -/
theorem c3_release_on_all_paths {n k : Nat} {s : LBState} (h : ReachableLB n k s)
    (hdone : ∀ j ∈ s.jobs, ∃ ok, j = JStatus.done ok) :
    s.active = 0 ∧ s.sem = n := by
  obtain ⟨hsum, hact⟩ := lb_invariant h
  have hz : runningCount s.jobs = 0 := by
    unfold runningCount
    rw [List.countP_eq_zero]
    intro j hj
    obtain ⟨ok, rfl⟩ := hdone j hj
    simp
  rw [hz] at hsum hact
  exact ⟨by simpa using hact, by simpa using hsum⟩

/-- C3 (witness): `n = 1`, `k = 2`; job 0 runs and raises, then job 1 runs
and returns normally.  After both complete, `active_requests = 0` and the
semaphore is back at `1`. -/
theorem c3_release_on_all_paths_witness :
    (⟨1, 0, [JStatus.done false, JStatus.done true]⟩ : LBState).active = 0
      ∧ (⟨1, 0, [JStatus.done false, JStatus.done true]⟩ : LBState).sem = 1 :=
  c3_release_on_all_paths
    (Relation.ReflTransGen.tail (Relation.ReflTransGen.tail
      (Relation.ReflTransGen.tail (Relation.ReflTransGen.tail
        (Relation.ReflTransGen.refl)
        (show LBStep (initLB 1 2) ⟨0, 1, [JStatus.running, JStatus.pending]⟩ from
          LBStep.acquire (initLB 1 2) 0 (by decide) (by decide)))
        (show LBStep ⟨0, 1, [JStatus.running, JStatus.pending]⟩
            ⟨1, 0, [JStatus.done false, JStatus.pending]⟩ from
          LBStep.finish _ 0 false (by decide)))
        (show LBStep ⟨1, 0, [JStatus.done false, JStatus.pending]⟩
            ⟨0, 1, [JStatus.done false, JStatus.running]⟩ from
          LBStep.acquire _ 1 (by decide) (by decide)))
        (show LBStep ⟨0, 1, [JStatus.done false, JStatus.running]⟩
            ⟨1, 0, [JStatus.done false, JStatus.done true]⟩ from
          LBStep.finish _ 1 true (by decide)))
    (by
      intro j hj
      rcases List.mem_cons.mp hj with rfl | hj
      · exact ⟨false, rfl⟩
      · rcases List.mem_cons.mp hj with rfl | hj
        · exact ⟨true, rfl⟩
        · exact absurd hj (List.not_mem_nil j))

/-! ## ImageCache (src/performance.py lines 66-122)

`get_cached_result` computes the image hash (`_get_image_hash` never raises:
it has its own internal catch), builds the key `"colorized:" + hash`, awaits
`redis.get(key)` (which may raise), and on a truthy result increments
`cache_hits` and returns it; on a falsy result (None, or empty bytes)
increments `cache_misses` and returns None.  The whole body sits in a
`try/except` that logs and returns None.

`cache_result` computes the same key, awaits `redis.setex(key, ttl, bytes)`
(which may raise) inside a `try/except` that logs and returns.

The key-value store is an oracle `g / se : String → Except Unit _`; the hash
string produced by `_get_image_hash` is a parameter. -/

structure CacheState where
  cache_hits : Nat
  cache_misses : Nat
deriving DecidableEq

/-- Payload bytes of a cached result. -/
def CacheBytes : Type := List Nat

/-- The `try` body of `get_cached_result`: propagates a store failure. -/
def getCachedResultBody (g : String → Except Unit (Option CacheBytes))
    (imageHash : String) (s : CacheState) :
    Except Unit (CacheState × Option CacheBytes) := do
  let result ← g ("colorized:" ++ imageHash)
  match result with
  | some b =>
      if b.isEmpty then
        pure ({ s with cache_misses := s.cache_misses + 1 }, none)
      else
        pure ({ s with cache_hits := s.cache_hits + 1 }, some b)
  | none => pure ({ s with cache_misses := s.cache_misses + 1 }, none)

/-- `ImageCache.get_cached_result` with its `except` clause: a failure
anywhere in the body is logged and the call returns `None` with the counters
untouched. -/
def get_cached_result (g : String → Except Unit (Option CacheBytes))
    (imageHash : String) (s : CacheState) :
    Except Unit (CacheState × Option CacheBytes) :=
  match getCachedResultBody g imageHash s with
  | Except.ok out => Except.ok out
  | Except.error _ => Except.ok (s, none)

/-- `ImageCache.cache_result` with its `except` clause: a failing
`redis.setex` is logged and the call returns normally. -/
def cache_result (se : String → Except Unit Unit) (imageHash : String) :
    Except Unit Unit :=
  match se ("colorized:" ++ imageHash) with
  | Except.ok _ => Except.ok ()
  | Except.error _ => Except.ok ()

structure CacheStats where
  cache_hits : Nat
  cache_misses : Nat
  hit_rate : ℚ
  total_requests : Nat
deriving DecidableEq

/-- `ImageCache.get_cache_stats`. -/
def get_cache_stats (s : CacheState) : CacheStats :=
  let total_requests := s.cache_hits + s.cache_misses
  { cache_hits := s.cache_hits
    cache_misses := s.cache_misses
    hit_rate := if 0 < total_requests
      then (s.cache_hits : ℚ) / (total_requests : ℚ) * 100 else 0
    total_requests := total_requests }

/-- C6: cache failures are contained.  `get_cached_result` always returns
(no exception propagates), and when the store raises on the lookup it returns
`None`, i.e. behaves as a miss; `cache_result` likewise always returns, so a
store failure can never surface as a job failure through either call. -/
theorem c6_cache_failure_contained
    (g : String → Except Unit (Option CacheBytes))
    (se : String → Except Unit Unit) (imageHash : String) (s : CacheState) :
    (∃ out, get_cached_result g imageHash s = Except.ok out)
      ∧ (g ("colorized:" ++ imageHash) = Except.error ()
          → get_cached_result g imageHash s = Except.ok (s, none))
      ∧ cache_result se imageHash = Except.ok () := by
  refine ⟨?_, ?_, ?_⟩
  · unfold get_cached_result
    cases getCachedResultBody g imageHash s with
    | ok out => exact ⟨out, rfl⟩
    | error e => exact ⟨(s, none), rfl⟩
  · intro herr
    unfold get_cached_result getCachedResultBody
    rw [herr]
    rfl
  · unfold cache_result
    cases se ("colorized:" ++ imageHash) with
    | ok u => rfl
    | error e => rfl

/-- C6 (witness): with a store whose lookup raises and whose write raises,
both calls return normally and the lookup behaves as a miss. -/
theorem c6_cache_failure_contained_witness :
    (∃ out, get_cached_result (fun _ => Except.error ()) "h" ⟨0, 0⟩ = Except.ok out)
      ∧ ((fun (_ : String) => (Except.error () : Except Unit (Option CacheBytes)))
            ("colorized:" ++ "h") = Except.error ()
          → get_cached_result (fun _ => Except.error ()) "h" ⟨0, 0⟩
              = Except.ok (⟨0, 0⟩, none))
      ∧ cache_result (fun _ => Except.error ()) "h" = Except.ok () :=
  c6_cache_failure_contained (fun _ => Except.error ()) (fun _ => Except.error ()) "h" ⟨0, 0⟩

/-- C10: an error-path lookup is invisible in the statistics.  When the store
raises during `get_cached_result`, the call returns `(s, none)` — a miss to
the caller — with `cache_hits` and `cache_misses` untouched, so
`get_cache_stats` (hits, misses, totals, hit rate) is exactly what it was
before the failed lookup; only lookups that completed against the store are
counted. -/
theorem c10_error_lookups_uncounted
    (g : String → Except Unit (Option CacheBytes)) (imageHash : String)
    (s : CacheState) (herr : g ("colorized:" ++ imageHash) = Except.error ()) :
    get_cached_result g imageHash s = Except.ok (s, none)
      ∧ ∀ s2 r, get_cached_result g imageHash s = Except.ok (s2, r)
          → get_cache_stats s2 = get_cache_stats s := by
  have hres : get_cached_result g imageHash s = Except.ok (s, none) := by
    unfold get_cached_result getCachedResultBody
    rw [herr]
    rfl
  refine ⟨hres, ?_⟩
  intro s2 r h2
  rw [hres] at h2
  injection h2 with h3
  injection h3 with h4 h5
  rw [h4]

/-- C10 (witness): concrete failing store, fresh counters. -/
theorem c10_error_lookups_uncounted_witness :
    get_cached_result (fun _ => Except.error ()) "h" ⟨3, 5⟩ = Except.ok (⟨3, 5⟩, none)
      ∧ ∀ s2 r, get_cached_result (fun _ => Except.error ()) "h" ⟨3, 5⟩ = Except.ok (s2, r)
          → get_cache_stats s2 = get_cache_stats ⟨3, 5⟩ :=
  c10_error_lookups_uncounted (fun _ => Except.error ()) "h" ⟨3, 5⟩ rfl

/-! ## MetricsCollector (src/performance.py lines 329-384)

`record_metric` builds a sample `{name, value, timestamp, tags}` and runs
`lpush(metrics_key, sample)` followed by `ltrim(metrics_key, 0, 10000)`.
`lpush` prepends (newest at the head); Redis `LTRIM key 0 10000` keeps the
elements at the *inclusive* index range `0..10000`, i.e. the newest 10001.

`get_metrics_summary(hours)` reads the whole list, keeps the samples whose
timestamp is strictly newer than `utcnow() - timedelta(hours=hours)`,
returns `{}` when none remain, and otherwise returns a dict holding the
average and maximum of the values named `"processing_time"`, the sum of the
values named `"request_count"`, and the count of all in-window samples.

Timestamps and the current time are modelled as rationals counting seconds;
a window of `hours` hours is `3600 * hours` seconds. -/

structure Metric where
  name : String
  value : ℚ
  timestamp : ℚ
  tags : List (String × String)
deriving DecidableEq

/-- `MetricsCollector.record_metric` on a successful store round-trip:
`lpush` then inclusive `ltrim 0 10000`.  (A store failure is caught by the
surrounding `try/except` and leaves the log unchanged.) -/
def record_metric (log : List Metric) (m : Metric) : List Metric :=
  (m :: log).take 10001

/-- `n` consecutive successful `record_metric` calls starting from the empty
log, all recording the same sample. -/
def recordRepeat (m : Metric) : Nat → List Metric
  | 0 => []
  | n + 1 => record_metric (recordRepeat m n) m

structure MetricsSummary where
  avg_processing_time : ℚ
  max_processing_time : ℚ
  total_requests : ℚ
  metrics_count : Nat
deriving DecidableEq

/-- The cutoff `utcnow() - timedelta(hours=hours)` of `get_metrics_summary`. -/
def cutoffTime (now hours : ℚ) : ℚ := now - 3600 * hours

/-- The in-window filter of `get_metrics_summary`: keeps a sample iff
`datetime.fromisoformat(metric['timestamp']) > cutoff_time` — strictly newer
than the cutoff. -/
def recentMetrics (log : List Metric) (now hours : ℚ) : List Metric :=
  log.filter (fun m => decide (cutoffTime now hours < m.timestamp))

/-- Python's `max` over a nonempty list (`0` for the empty list, which the
code never passes to it). -/
def listMax : List ℚ → ℚ
  | [] => 0
  | a :: rest => rest.foldl max a

/-- `MetricsCollector.get_metrics_summary` (successful store round-trip):
`none` models the empty dict returned when no sample is in the window. -/
def get_metrics_summary (log : List Metric) (now hours : ℚ) :
    Option MetricsSummary :=
  let recent := recentMetrics log now hours
  if recent.isEmpty then none
  else
    let processing_times := (recent.filter (fun m => m.name == "processing_time")).map (fun m => m.value)
    let request_counts := (recent.filter (fun m => m.name == "request_count")).map (fun m => m.value)
    some
      { avg_processing_time :=
          if processing_times.isEmpty then 0
          else processing_times.sum / (processing_times.length : ℚ)
        max_processing_time :=
          if processing_times.isEmpty then 0 else listMax processing_times
        total_requests :=
          if request_counts.isEmpty then 0 else request_counts.sum
        metrics_count := recent.length }

/-- Spec-side: the values of the in-window samples carrying a given name. -/
def nameValues (log : List Metric) (now hours : ℚ) (name : String) : List ℚ :=
  ((recentMetrics log now hours).filter (fun m => m.name == name)).map
    (fun m => m.value)

/-- Spec-side: per-name in-window sample count. -/
def nameCount (log : List Metric) (now hours : ℚ) (name : String) : Nat :=
  (nameValues log now hours name).length

/-- Spec-side: per-name in-window sum. -/
def nameSum (log : List Metric) (now hours : ℚ) (name : String) : ℚ :=
  (nameValues log now hours name).sum

/-- Spec-side: per-name in-window average. -/
def nameAvg (log : List Metric) (now hours : ℚ) (name : String) : ℚ :=
  if (nameValues log now hours name).isEmpty then 0
  else nameSum log now hours name / (nameCount log now hours name : ℚ)

/-- Spec-side: per-name in-window maximum. -/
def nameMax (log : List Metric) (now hours : ℚ) (name : String) : ℚ :=
  listMax (nameValues log now hours name)

/-- Concrete log for the C4 evaluation: one fixed sample. -/
def mSample : Metric := ⟨"processing_time", 1, 0, []⟩

theorem recordRepeat_length (m : Metric) (n : Nat) :
    (recordRepeat m n).length = min n 10001 := by
  induction n with
  | zero => simp [recordRepeat]
  | succ n ih =>
    simp only [recordRepeat, record_metric, List.length_take, List.length_cons, ih]
    omega

/-- C4 (code bug, evaluated): after 10001 consecutive `record_metric` calls
the shared metrics log holds 10001 samples — `ltrim(key, 0, 10000)` keeps the
inclusive index range `0..10000`, so the retained capacity is 10001, one more
than the 10,000 stated by the claim and by the code's own comment
"Keep last 10k metrics". -/
theorem c4_capacity_off_by_one :
    (recordRepeat mSample 10001).length = 10001
      ∧ ¬ ((recordRepeat mSample 10001).length ≤ 10000) := by
  have h := recordRepeat_length mSample 10001
  have h2 : (recordRepeat mSample 10001).length = 10001 := by
    rw [h]; decide
  exact ⟨h2, by rw [h2]; decide⟩

/-- In-window membership is exactly the strict comparison used by the code. -/
theorem mem_recentMetrics (log : List Metric) (now hours : ℚ) (m : Metric) :
    m ∈ recentMetrics log now hours
      ↔ m ∈ log ∧ cutoffTime now hours < m.timestamp := by
  unfold recentMetrics
  rw [List.mem_filter]
  simp

/-- C9: `get_metrics_summary`'s window filter keeps a recorded sample iff its
timestamp is strictly newer than `now - 3600 * hours`; in particular every
sample older than the cutoff is excluded, and a sample lying exactly on the
boundary `now - window` is excluded (the code's comparison is strict). -/
theorem c9_window_filter (log : List Metric) (now hours : ℚ) (m : Metric)
    (hm : m ∈ log) :
    (m ∈ recentMetrics log now hours ↔ now - 3600 * hours < m.timestamp)
      ∧ (m.timestamp = now - 3600 * hours → m ∉ recentMetrics log now hours) := by
  have hmem := mem_recentMetrics log now hours m
  unfold cutoffTime at hmem
  constructor
  · rw [hmem]
    exact ⟨fun h => h.2, fun h => ⟨hm, h⟩⟩
  · intro hb hin
    rw [hmem] at hin
    rw [hb] at hin
    exact lt_irrefl _ hin.2

/-- C9 (witness): with `now = 7200` and a one-hour window, the sample stamped
exactly at the boundary `3600` is excluded from the summary's window. -/
theorem c9_window_filter_witness :
    ((⟨"processing_time", 1, 3600, []⟩ : Metric)
        ∈ recentMetrics [⟨"processing_time", 1, 3600, []⟩] 7200 1
      ↔ 7200 - 3600 * 1 < (3600 : ℚ))
      ∧ ((⟨"processing_time", 1, 3600, []⟩ : Metric).timestamp = 7200 - 3600 * 1
          → (⟨"processing_time", 1, 3600, []⟩ : Metric)
              ∉ recentMetrics [⟨"processing_time", 1, 3600, []⟩] 7200 1) :=
  c9_window_filter [⟨"processing_time", 1, 3600, []⟩] 7200 1
    ⟨"processing_time", 1, 3600, []⟩ (List.mem_singleton.mpr rfl)

/-- Concrete log for the C5 counterexample: three in-window samples all named
`"request_count"`, with values 1, 2 and 9. -/
def c5Log : List Metric :=
  [⟨"request_count", 1, 9000, []⟩, ⟨"request_count", 2, 9000, []⟩,
   ⟨"request_count", 9, 9000, []⟩]

theorem c5Log_recent : recentMetrics c5Log 10000 1 = c5Log := by
  unfold recentMetrics c5Log cutoffTime
  simp only [List.filter_cons, List.filter_nil, decide_eq_true_eq]
  norm_num

theorem c5Log_rc : nameValues c5Log 10000 1 "request_count" = [1, 2, 9] := by
  unfold nameValues
  rw [c5Log_recent]
  unfold c5Log
  simp

theorem c5Log_pt : nameValues c5Log 10000 1 "processing_time" = [] := by
  unfold nameValues
  rw [c5Log_recent]
  unfold c5Log
  simp

/-- C5 (counterexample): `get_metrics_summary` does not return count, average
and maximum for each requested metric name present in the window.  With three
in-window `"request_count"` samples of values 1, 2, 9 (count 3, average 4,
maximum 9) at `now = 10000`, window one hour, the returned summary is
`{avg_processing_time := 0, max_processing_time := 0, total_requests := 12,
metrics_count := 3}`: the only number reported for `"request_count"` is the
*sum* 12, and the per-name maximum 9 (and average 4) appears in no field of
the summary. -/
theorem c5_counterexample :
    get_metrics_summary c5Log 10000 1 = some ⟨0, 0, 12, 3⟩
      ∧ nameCount c5Log 10000 1 "request_count" = 3
      ∧ nameAvg c5Log 10000 1 "request_count" = 4
      ∧ nameMax c5Log 10000 1 "request_count" = 9
      ∧ (0 : ℚ) ≠ 9 ∧ (12 : ℚ) ≠ 9 ∧ ((3 : Nat) : ℚ) ≠ 9
      ∧ (0 : ℚ) ≠ 4 ∧ (12 : ℚ) ≠ 4 ∧ ((3 : Nat) : ℚ) ≠ 4 := by
  have hsummary : get_metrics_summary c5Log 10000 1 = some ⟨0, 0, 12, 3⟩ := by
    unfold get_metrics_summary
    rw [c5Log_recent]
    have hpt : (c5Log.filter (fun m => m.name == "processing_time")).map
        (fun m => m.value) = [] := by
      unfold c5Log; simp
    have hrc : (c5Log.filter (fun m => m.name == "request_count")).map
        (fun m => m.value) = [1, 2, 9] := by
      unfold c5Log; simp
    simp only [hpt, hrc]
    norm_num [c5Log]
  refine ⟨hsummary, ?_, ?_, ?_, by norm_num, by norm_num, by norm_num,
    by norm_num, by norm_num, by norm_num⟩
  · unfold nameCount
    rw [c5Log_rc]
    rfl
  · unfold nameAvg nameSum nameCount
    rw [c5Log_rc]
    norm_num
  · unfold nameMax
    rw [c5Log_rc]
    unfold listMax
    norm_num [max_def]

/-- C5 (amended): `get_metrics_summary` filters the log to the samples
strictly newer than `now - window` and returns `{}` when none remain;
otherwise it reports statistics for two hard-wired metric names only:
the average and the maximum of the in-window `"processing_time"` values
(0 when there are none), the *sum* — not count/average/maximum — of the
in-window `"request_count"` values, and the count of all in-window samples
regardless of name.  No other metric name is summarised. -/
theorem c5_amended (log : List Metric) (now hours : ℚ) :
    (recentMetrics log now hours = [] → get_metrics_summary log now hours = none)
      ∧ (recentMetrics log now hours ≠ [] →
          get_metrics_summary log now hours = some
            { avg_processing_time := nameAvg log now hours "processing_time"
              max_processing_time := nameMax log now hours "processing_time"
              total_requests := nameSum log now hours "request_count"
              metrics_count := (recentMetrics log now hours).length }) := by
  constructor
  · intro h
    unfold get_metrics_summary
    rw [h]
    rfl
  · intro h
    have hne : (recentMetrics log now hours).isEmpty = false := by
      cases hrec : recentMetrics log now hours with
      | nil => exact absurd hrec h
      | cons a t => rfl
    have hmax : ∀ l : List ℚ, (if l.isEmpty then (0:ℚ) else listMax l) = listMax l := by
      intro l; cases l <;> simp [listMax]
    have hsum : ∀ l : List ℚ, (if l.isEmpty then (0:ℚ) else l.sum) = l.sum := by
      intro l; cases l <;> simp
    simp only [get_metrics_summary, hne, Bool.false_eq_true, if_false, hmax, hsum]
    rfl

/-- C5 (witness for the amended theorem): evaluated on the concrete log used
above (nonempty window) and on the empty log (empty window). -/
theorem c5_amended_witness :
    get_metrics_summary c5Log 10000 1 = some
        { avg_processing_time := nameAvg c5Log 10000 1 "processing_time"
          max_processing_time := nameMax c5Log 10000 1 "processing_time"
          total_requests := nameSum c5Log 10000 1 "request_count"
          metrics_count := (recentMetrics c5Log 10000 1).length }
      ∧ get_metrics_summary [] 10000 1 = none :=
  ⟨(c5_amended c5Log 10000 1).2
      (by rw [c5Log_recent]; unfold c5Log; simp),
   (c5_amended [] 10000 1).1 rfl⟩

/-! ## HealthChecker (src/performance.py lines 250-315)

`check_health` starts from `overall_status = 'healthy'`, sequentially probes
the database (pool present + `SELECT 1`, which may raise), Redis (`ping`,
which may raise) and the model (`net` attribute present), demoting the
overall status to `'degraded'` on each probe failure.  It then reads
`psutil.cpu_percent()` and `psutil.virtual_memory().percent`, attaches a
`'system'` pseudo-component whose status is `'healthy'` when
`cpu_percent < 90 and memory_percent < 90` and `'warning'` otherwise, and
finally overrides the overall status to `'critical'` when
`cpu_percent > 95 or memory_percent > 95`.

The probe outcomes are oracle parameters; the two percentages are ℚ. -/

inductive OverallStatus where
  | healthy : OverallStatus
  | degraded : OverallStatus
  | critical : OverallStatus
deriving DecidableEq

inductive SysStatus where
  | healthy : SysStatus
  | warning : SysStatus
deriving DecidableEq

/-- Outcome of the database probe: pool present and `SELECT 1` succeeded,
pool absent, or the query raised. -/
inductive DbProbe where
  | ok : DbProbe
  | noPool : DbProbe
  | raised : DbProbe
deriving DecidableEq

/-- Outcome of the Redis probe: `ping()` succeeded or raised. -/
inductive PingProbe where
  | ok : PingProbe
  | raised : PingProbe
deriving DecidableEq

/-- Outcome of the model probe: `model.net` present, absent, or the check
raised. -/
inductive ModelProbe where
  | loaded : ModelProbe
  | notLoaded : ModelProbe
  | raised : ModelProbe
deriving DecidableEq

structure SystemComponent where
  cpu_percent : ℚ
  memory_percent : ℚ
  status : SysStatus
deriving DecidableEq

structure HealthSnapshot where
  overall_status : OverallStatus
  database_healthy : Bool
  redis_healthy : Bool
  model_healthy : Bool
  system : SystemComponent
deriving DecidableEq

/-- `HealthChecker.check_health`. -/
def check_health (db : DbProbe) (ping : PingProbe) (model : ModelProbe)
    (cpu_percent memory_percent : ℚ) : HealthSnapshot :=
  let o1 := if db = DbProbe.ok then OverallStatus.healthy else OverallStatus.degraded
  let o2 := if ping = PingProbe.ok then o1 else OverallStatus.degraded
  let o3 := if model = ModelProbe.loaded then o2 else OverallStatus.degraded
  let sys : SystemComponent :=
    ⟨cpu_percent, memory_percent,
     if cpu_percent < 90 ∧ memory_percent < 90 then SysStatus.healthy
     else SysStatus.warning⟩
  let overall :=
    if 95 < cpu_percent ∨ 95 < memory_percent then OverallStatus.critical else o3
  ⟨overall, db = DbProbe.ok, ping = PingProbe.ok, model = ModelProbe.loaded, sys⟩

/-- The overall status derived from the three component probes alone
(before the system-resource override). -/
def componentOverall (db : DbProbe) (ping : PingProbe) (model : ModelProbe) :
    OverallStatus :=
  if db = DbProbe.ok ∧ ping = PingProbe.ok ∧ model = ModelProbe.loaded
  then OverallStatus.healthy else OverallStatus.degraded

theorem check_health_overall_eq (db : DbProbe) (ping : PingProbe)
    (model : ModelProbe) (cpu_percent memory_percent : ℚ)
    (hc : ¬ (95 < cpu_percent ∨ 95 < memory_percent)) :
    (check_health db ping model cpu_percent memory_percent).overall_status
      = componentOverall db ping model := by
  unfold check_health componentOverall
  simp only [if_neg hc]
  by_cases hdb : db = DbProbe.ok
  · by_cases hping : ping = PingProbe.ok
    · by_cases hmodel : model = ModelProbe.loaded
      · simp [hdb, hping, hmodel]
      · simp [hdb, hping, hmodel]
    · by_cases hmodel : model = ModelProbe.loaded <;> simp [hdb, hping, hmodel]
  · by_cases hping : ping = PingProbe.ok <;>
      by_cases hmodel : model = ModelProbe.loaded <;> simp [hdb, hping, hmodel]

/-- C7: in every snapshot produced by `check_health`, a reading above the
high threshold (`cpu > 95` or `memory > 95`) forces the overall status to
`critical`, whatever the database, Redis and model probes returned; and when
both readings are at most 95 but at least one is at or above the lower
threshold 90, the `system` pseudo-component is marked `warning` while the
overall status stays exactly the one derived from the three component probes
(it is not demoted by the warning alone). -/
theorem c7_resource_thresholds (db : DbProbe) (ping : PingProbe)
    (model : ModelProbe) (cpu_percent memory_percent : ℚ) :
    ((95 < cpu_percent ∨ 95 < memory_percent) →
      (check_health db ping model cpu_percent memory_percent).overall_status
        = OverallStatus.critical)
      ∧ (cpu_percent ≤ 95 → memory_percent ≤ 95
          → (90 ≤ cpu_percent ∨ 90 ≤ memory_percent)
          → (check_health db ping model cpu_percent memory_percent).system.status
              = SysStatus.warning
            ∧ (check_health db ping model cpu_percent memory_percent).overall_status
              = componentOverall db ping model) := by
  constructor
  · intro hhigh
    unfold check_health
    simp only [if_pos hhigh]
  · intro hcpu hmem hlow
    have hnc : ¬ (95 < cpu_percent ∨ 95 < memory_percent) := by
      push_neg
      exact ⟨hcpu, hmem⟩
    refine ⟨?_, check_health_overall_eq db ping model _ _ hnc⟩
    unfold check_health
    have hnw : ¬ (cpu_percent < 90 ∧ memory_percent < 90) := by
      rcases hlow with h | h
      · exact fun hw => absurd h (not_le.mpr hw.1)
      · exact fun hw => absurd h (not_le.mpr hw.2)
    simp only [if_neg hnw]

/-- C7 (witness): with a raising database probe, healthy Redis and loaded
model, CPU at 96% forces `critical`; with all probes healthy, CPU at 92% and
memory at 50% yields a `warning` system component and a `healthy` overall
status. -/
theorem c7_resource_thresholds_witness :
    (check_health DbProbe.raised PingProbe.ok ModelProbe.loaded 96 50).overall_status
        = OverallStatus.critical
      ∧ ((check_health DbProbe.ok PingProbe.ok ModelProbe.loaded 92 50).system.status
            = SysStatus.warning
          ∧ (check_health DbProbe.ok PingProbe.ok ModelProbe.loaded 92 50).overall_status
            = componentOverall DbProbe.ok PingProbe.ok ModelProbe.loaded) :=
  ⟨(c7_resource_thresholds DbProbe.raised PingProbe.ok ModelProbe.loaded 96 50).1
      (Or.inl (by norm_num)),
   (c7_resource_thresholds DbProbe.ok PingProbe.ok ModelProbe.loaded 92 50).2
      (by norm_num) (by norm_num) (Or.inl (by norm_num))⟩
